import Mathlib

/-!
Verification of the PDF-chat pipeline of this repository
(`src/Claude_citations_v1.py` and `src/pdf_chat.py`; the two files are
near-identical, with matching line offsets noted per definition).

The embedding models:
* `process_pdf` (the chunker, v1 lines 38-89): page windowing, titles,
  base64 document units, and the md5 fingerprint.  External collaborators
  (PyPDF2 parsing, PdfWriter serialization, base64, md5) are parameters:
  `parsePdf` stands for `PdfReader`/`.pages` and also records the stream
  position the parser leaves the open file at (the code calls
  `file.read()` for the hash *after* parsing, so the hashed bytes start at
  that position).  The fingerprint is represented by the exact byte string
  handed to md5: any deterministic digest maps equal inputs to equal
  outputs, so claims about the digest reduce to claims about its input.
* the citation-normalization loop (v1 lines 177-190),
* the request assembly (v1 lines 135-151),
* the response validation (v1 lines 166-170), and
* the prompt handler's transcript mutations (v1 lines 122-215): append the
  user turn, dispatch, on success append the assistant turn, on any error
  `pop()` the just-added user turn.
-/

namespace PdfChat

/-- A display-ready citation record, as appended to the `citations` list in
the extraction loop (v1 lines 185-190). -/
structure Citation where
  document : String
  start_page : Nat
  end_page : Nat
  text : String
deriving Repr, DecidableEq

/-- One turn of the session transcript, as stored in
`st.session_state.messages`: a dict with `role`, `content`, `citations`. -/
structure ChatTurn where
  role : String
  content : String
  citations : List Citation
deriving Repr, DecidableEq

/-- The citation fields of an API response content block.  A `none` field
models a *missing* attribute, which `getattr(cite, field, default)`
replaces by the default. -/
structure ApiCitation where
  document_title : Option String
  start_page_number : Option Nat
  end_page_number : Option Nat
  cited_text : Option String
deriving Repr, DecidableEq

/-- Python string slicing `s[:n]`: the first `n` characters (code points)
of `s`, or all of `s` when it is shorter. -/
def pyTake (n : Nat) (s : String) : String :=
  String.mk (s.toList.take n)

/-- The body of the citation extraction loop (v1 lines 185-190,
pdf_chat lines 167-172): missing title defaults to `"Unknown Document"`,
missing page numbers default to `0`, and the cited text is sliced to 150
characters with `"..."` appended. -/
def normalizeCitation (cite : ApiCitation) : Citation :=
  { document := cite.document_title.getD "Unknown Document"
    start_page := cite.start_page_number.getD 0
    end_page := cite.end_page_number.getD 0
    text := pyTake 150 (cite.cited_text.getD "") ++ "..." }

/-- A content block of the API response.  `text` carries the block text and
its citation list (`hasattr(block, 'citations')` false, or a `None`/empty
list, behaves identically to an empty list in the loop, so both are
modelled as `[]`); `other` is any non-text block, which the loop skips. -/
inductive RespBlock where
  | text (body : String) (cites : List ApiCitation)
  | other
deriving Repr, DecidableEq

/-- The response-processing loop (v1 lines 177-190): concatenate the text
of text-type blocks into `full_response` and normalize every citation of
every text block, in order. -/
def extractCitations (blocks : List RespBlock) : String × List Citation :=
  blocks.foldl
    (fun acc b =>
      match b with
      | .text body cites => (acc.1 ++ body, acc.2 ++ cites.map normalizeCitation)
      | .other => acc)
    ("", [])

/-- The raw object returned by the remote boundary, as seen by the
validation code (v1 lines 166-170): `none` is a falsy/absent result
(`if not response`), `noContent` a result without a `content` attribute
(`not hasattr(response, 'content')`), `ok` a result with content blocks. -/
inductive RawResponse where
  | none
  | noContent
  | ok (content : List RespBlock)
deriving Repr, DecidableEq

/-- The error kinds a failed exchange can surface (section 7 of the spec;
in the code all are Python exceptions caught by the same `except`). -/
inductive ExchangeError where
  | emptyResponse (msg : String)
  | malformedResponse (msg : String)
  | dispatchFailure (msg : String)
deriving Repr, DecidableEq

/-- Response validation (v1 lines 166-170): `raise ValueError` on a falsy
response or on a response without a `content` field, with the code's
message strings. -/
def validateResponse (r : RawResponse) : Except ExchangeError (List RespBlock) :=
  match r with
  | .none => .error (.emptyResponse "Empty API response - no data received")
  | .noContent => .error (.malformedResponse "Malformed API response - missing content field")
  | .ok content => .ok content

/-- One base64-encoded page-window chunk of the PDF, i.e. one element of
the `documents` list built in `process_pdf` (v1 lines 74-83). -/
structure DocumentUnit where
  mediaType : String
  data : String
  title : String
  citationsEnabled : Bool
deriving Repr, DecidableEq

/-- A content block of an outbound API message: either a document block
(one of the spread `*documents` dicts) or a text block. -/
inductive ContentBlock where
  | document (unit : DocumentUnit)
  | text (body : String)
deriving Repr, DecidableEq

/-- Whether a block is a document block. -/
def ContentBlock.isDocument : ContentBlock → Bool
  | .document _ => true
  | .text _ => false

/-- One outbound API message: a role and a list of content blocks. -/
structure ApiMessage where
  role : String
  content : List ContentBlock
deriving Repr, DecidableEq

/-- Python `str.isspace`-style whitespace as stripped by `str.strip()`
(restricted to the ASCII whitespace characters). -/
def isPySpace (c : Char) : Bool :=
  c = ' ' || c = '\t' || c = '\n' || c = '\r' || c = '\x0b' || c = '\x0c'

/-- Python `str.strip()`: remove leading and trailing whitespace. -/
def pyStrip (s : String) : String :=
  String.mk (((s.toList.dropWhile isPySpace).reverse.dropWhile isPySpace).reverse)

/-- The request assembly (v1 lines 135-151): the first message is role
`"user"` with all document chunks followed by one text block holding the
prompt; then one text-only message per prior turn whose content is truthy
after `strip()`, in order.  (The code's `if history:` guard is a no-op:
iterating an empty history appends nothing.) -/
def buildRequest (documents : List DocumentUnit) (prompt : String)
    (history : List ChatTurn) : List ApiMessage :=
  { role := "user"
    content := documents.map ContentBlock.document ++ [ContentBlock.text prompt] }
    :: (history.filter (fun msg => !(pyStrip msg.content).isEmpty)).map
      (fun msg => { role := msg.role, content := [ContentBlock.text msg.content] })

/-- The transcript-mutating prompt handler (v1 lines 122-215): append the
user turn (line 124), build the request over `messages[:-1]` (lines
135-151), dispatch and validate, extract citations, and either append the
assistant turn (lines 203-207) or, in the `except` block, `pop()` the
just-added user turn (line 215).  `dispatch` stands for
`client.messages.create`; a `.error` result is any other exception it
raises (network, auth, quota).  Returns the final transcript and the
error, if any. -/
def mainExchange (documents : List DocumentUnit) (msgs : List ChatTurn)
    (prompt : String) (dispatch : List ApiMessage → Except ExchangeError RawResponse) :
    List ChatTurn × Option ExchangeError :=
  let msgs1 := msgs ++ [{ role := "user", content := prompt, citations := [] }]
  let payload := buildRequest documents prompt msgs1.dropLast
  match dispatch payload with
  | .error e => (msgs1.dropLast, some e)
  | .ok raw =>
    match validateResponse raw with
    | .error e => (msgs1.dropLast, some e)
    | .ok blocks =>
      let extracted := extractCitations blocks
      (msgs1 ++ [{ role := "assistant", content := extracted.1,
                   citations := extracted.2 }], Option.none)

/-- Python `range(start, stop, 100)`: the window start pages of the
chunking loop (v1 line 61). -/
def pyRange100 (start stop : Nat) : List Nat :=
  if start < stop then start :: pyRange100 (start + 100) stop else []
termination_by stop - start
decreasing_by omega

/-- The page indices of one window: Python
`range(start, min(start + 100, num_pages))` (v1 line 63). -/
def chunkPageIndices (start numPages : Nat) : List Nat :=
  List.range' start (min (start + 100) numPages - start)

/-- The 1-based inclusive page range embedded in each chunk title:
`(start+1, min(start+100, num_pages))` (v1 line 81). -/
def chunkRanges (numPages : Nat) : List (Nat × Nat) :=
  (pyRange100 0 numPages).map (fun start => (start + 1, min (start + 100) numPages))

/-- The title of one chunk (v1 line 81):
`f"{os.path.basename(file_path)} (pages {start+1}-{min(start+100, num_pages)})"`. -/
def chunkTitle (basename : String) (r : Nat × Nat) : String :=
  basename ++ " (pages " ++ toString r.1 ++ "-" ++ toString r.2 ++ ")"

/-- The result of `PdfReader(file)` plus `len(pdf_reader.pages)`: the page
list (each page an opaque token) and the stream position the parser leaves
the open file at.  PyPDF2 seeks around the stream while parsing, so this
position is library-determined, not necessarily `0`. -/
structure ParsedPdf where
  pages : List Nat
  posAfterParse : Nat
deriving Repr, DecidableEq

/-- `process_pdf` (v1 lines 38-89, pdf_chat lines 36-73), on a file that
parses successfully.  `parsePdf` stands for PyPDF2 parsing, `writerBytes`
for `PdfWriter.write` serialization of an extracted page list, and
`b64encode` for `base64.b64encode(...).decode('utf-8')`.  Returns the
`documents` list and the byte string handed to `hashlib.md5`: the code
computes `md5(file.read())` *after* parsing, so those are the file's bytes
from the parser's final stream position on.  (The `file.seek(0)` on the
next line happens after the hash is taken and does not affect any
output.) -/
def process_pdf (parsePdf : List Nat → ParsedPdf) (writerBytes : List Nat → List Nat)
    (b64encode : List Nat → String) (basename : String) (fileBytes : List Nat) :
    List DocumentUnit × List Nat :=
  let parsed := parsePdf fileBytes
  let numPages := parsed.pages.length
  let hashedBytes := fileBytes.drop parsed.posAfterParse
  let documents := (pyRange100 0 numPages).map (fun start =>
    let chunkPages := (chunkPageIndices start numPages).map (fun p => parsed.pages.getD p 0)
    { mediaType := "application/pdf"
      data := b64encode (writerBytes chunkPages)
      title := chunkTitle basename (start + 1, min (start + 100) numPages)
      citationsEnabled := true : DocumentUnit })
  (documents, hashedBytes)

/-- Concrete one-page parse result (parser leaves the stream at position 0),
used to evaluate the chunker on small inputs. -/
def parseOnePage : List Nat → ParsedPdf := fun _ => { pages := [7], posAfterParse := 0 }

/-- Concrete zero-page parse result, used to evaluate the chunker on an
empty document. -/
def parseEmptyDoc : List Nat → ParsedPdf := fun _ => { pages := [], posAfterParse := 0 }

/-- Concrete 250-page parse result, used for the end-to-end scenario. -/
def parse250 : List Nat → ParsedPdf := fun _ => { pages := List.range 250, posAfterParse := 0 }

/-- Concrete trivial serializer standing in for `PdfWriter.write`. -/
def writer0 : List Nat → List Nat := fun _ => []

/-- Concrete trivial base64 encoder. -/
def b64c : List Nat → String := fun _ => "d"

/-- Concrete citation annotation with a 2-character excerpt. -/
def citeHi : ApiCitation :=
  { document_title := some "Doc"
    start_page_number := some 1
    end_page_number := some 1
    cited_text := some "hi" }

/-- Concrete citation annotation with a 2-character excerpt `"ok"`. -/
def citeOk : ApiCitation :=
  { document_title := some "Doc"
    start_page_number := some 1
    end_page_number := some 1
    cited_text := some "ok" }

/-- Concrete citation annotation with title and page fields missing. -/
def citeMissing : ApiCitation :=
  { document_title := Option.none
    start_page_number := Option.none
    end_page_number := Option.none
    cited_text := some "x" }

/-! ### Shared lemmas -/

/-- `s[:n]` is the identity on strings of length at most `n`. -/
theorem pyTake_of_length_le (n : Nat) (s : String) (h : s.length ≤ n) : pyTake n s = s := by
  cases s with
  | mk data =>
    have h2 : data.length ≤ n := h
    show String.mk (data.take n) = String.mk data
    rw [List.take_of_length_le h2]

/-- The chunk loop visits `⌈(stop - start) / 100⌉` window starts. -/
theorem pyRange100_length : ∀ start stop : Nat,
    (pyRange100 start stop).length = (stop - start + 99) / 100
  | start, stop => by
    rw [pyRange100]
    by_cases h : start < stop
    · rw [if_pos h, List.length_cons, pyRange100_length (start + 100) stop]
      omega
    · rw [if_neg h, List.length_nil]
      omega
termination_by start stop => stop - start
decreasing_by omega

/-- The windows of the chunk loop, concatenated, are exactly the page
indices from `start` up to `stop`. -/
theorem pyRange100_cover : ∀ start stop : Nat,
    (pyRange100 start stop).flatMap (fun s => chunkPageIndices s stop) =
      List.range' start (stop - start)
  | start, stop => by
    rw [pyRange100]
    by_cases h : start < stop
    · rw [if_pos h, List.flatMap_cons, pyRange100_cover (start + 100) stop]
      unfold chunkPageIndices
      rcases le_or_lt (start + 100) stop with hle | hlt
      · have hmin : min (start + 100) stop - start = 100 := by omega
        rw [hmin]
        have happ := List.range'_append_1 start 100 (stop - (start + 100))
        rw [happ]
        congr 1
        omega
      · have hmin : min (start + 100) stop - start = stop - start := by omega
        have h0 : stop - (start + 100) = 0 := by omega
        rw [hmin, h0]
        simp
    · rw [if_neg h]
      have h0 : stop - start = 0 := by omega
      simp [h0]
termination_by start stop => stop - start
decreasing_by omega

/-! ### Claims -/

/-- C1, counterexample: the code appends `"..."` unconditionally
(`getattr(cite, 'cited_text', '')[:150] + "..."`, v1 line 189), so a cited
excerpt of 2 characters — well under 150 — does *not* come out unchanged,
contradicting the claim's second half. -/
theorem C1_counterexample :
    ("hi" : String).length ≤ 150 ∧ (normalizeCitation citeHi).text ≠ "hi" := by
  constructor
  · decide
  · decide

/-- C1, amended: the Citation's text always equals the first 150 characters
of the cited excerpt followed by the ellipsis marker; in particular an
excerpt of at most 150 characters comes out as the whole excerpt with the
marker still appended. -/
theorem C1_amended (cite : ApiCitation) (s : String) (h : cite.cited_text = some s) :
    (normalizeCitation cite).text = pyTake 150 s ++ "..." ∧
    (s.length ≤ 150 → (normalizeCitation cite).text = s ++ "...") := by
  constructor
  · simp [normalizeCitation, h]
  · intro hle
    simp [normalizeCitation, h, pyTake_of_length_le 150 s hle]

/-- C1, witness for the amended theorem at a concrete short excerpt. -/
theorem C1_amended_witness : (normalizeCitation citeOk).text = "ok" ++ "..." :=
  (C1_amended citeOk "ok" rfl).2 (by decide)

/-- C6: a missing document-title field defaults to `"Unknown Document"`,
and missing start/end page-number fields default to `0`
(v1 lines 186-188). -/
theorem C6_defaults (cite : ApiCitation) :
    (cite.document_title = Option.none →
        (normalizeCitation cite).document = "Unknown Document") ∧
    (cite.start_page_number = Option.none → (normalizeCitation cite).start_page = 0) ∧
    (cite.end_page_number = Option.none → (normalizeCitation cite).end_page = 0) := by
  refine ⟨fun h => ?_, fun h => ?_, fun h => ?_⟩ <;> simp [normalizeCitation, h]

/-- C6, witness at a concrete annotation with all three fields missing. -/
theorem C6_defaults_witness :
    (normalizeCitation citeMissing).document = "Unknown Document" ∧
    (normalizeCitation citeMissing).start_page = 0 ∧
    (normalizeCitation citeMissing).end_page = 0 :=
  ⟨(C6_defaults citeMissing).1 rfl, (C6_defaults citeMissing).2.1 rfl,
    (C6_defaults citeMissing).2.2 rfl⟩

/-- C5: in the assembled request the first message carries the document
units exactly once (followed by the single prompt text block), and every
later message comes from a prior turn as a single text block whose content
is not blank after `strip()` — so no empty/whitespace-only turn is
included and the units never repeat, whatever the history length
(v1 lines 135-151). -/
theorem C5_history_assembly (documents : List DocumentUnit) (prompt : String)
    (history : List ChatTurn) :
    (buildRequest documents prompt history).head? =
      some { role := "user"
             content := documents.map ContentBlock.document ++ [ContentBlock.text prompt] } ∧
    ∀ m ∈ (buildRequest documents prompt history).tail,
      ∃ s, m.content = [ContentBlock.text s] ∧ (pyStrip s).isEmpty = false := by
  constructor
  · rfl
  · intro m hm
    simp only [buildRequest, List.tail_cons, List.mem_map, List.mem_filter] at hm
    obtain ⟨t, ⟨_, ht⟩, rfl⟩ := hm
    refine ⟨t.content, rfl, ?_⟩
    simpa using ht

/-- C5, witness: a concrete request over a one-turn history, with the
tail-message property instantiated at its only member. -/
theorem C5_history_assembly_witness :
    ∃ s, ({ role := "assistant", content := [ContentBlock.text "hello"] } : ApiMessage).content
        = [ContentBlock.text s] ∧ (pyStrip s).isEmpty = false :=
  (C5_history_assembly [] "q" [{ role := "assistant", content := "hello", citations := [] }]).2
    { role := "assistant", content := [ContentBlock.text "hello"] } (by decide)

/-- C3: the rollback law — whenever the exchange ends in any error (a
dispatch failure, an empty response, or a malformed response), the final
transcript equals the transcript before the user's new turn was appended:
the `except` block pops the just-added user turn (v1 line 215). -/
theorem C3_rollback (documents : List DocumentUnit) (msgs : List ChatTurn) (prompt : String)
    (dispatch : List ApiMessage → Except ExchangeError RawResponse) (e : ExchangeError) :
    (mainExchange documents msgs prompt dispatch).2 = some e →
      (mainExchange documents msgs prompt dispatch).1 = msgs := by
  simp only [mainExchange]
  split
  · intro _
    simp
  · split
    · intro _
      simp
    · intro h
      simp at h

/-- C3, witness: a concretely failing dispatch leaves a one-turn transcript
unchanged. -/
theorem C3_rollback_witness :
    (mainExchange [] [{ role := "assistant", content := "hello", citations := [] }] "q"
        (fun _ => .error (.dispatchFailure "boom"))).1 =
      [{ role := "assistant", content := "hello", citations := [] }] :=
  C3_rollback [] _ "q" _ (.dispatchFailure "boom") rfl

/-- C7: a falsy boundary result raises the empty-response error and a
result without a `content` field raises the malformed-response error
(v1 lines 166-170, with the code's message strings); in both cases the
exchange ends with that error, the citation extraction and the assistant
append never run, and the transcript is left exactly as before the
exchange (no net history mutation). -/
theorem C7_validation (documents : List DocumentUnit) (msgs : List ChatTurn) (prompt : String)
    (dispatch : List ApiMessage → Except ExchangeError RawResponse) :
    (dispatch (buildRequest documents prompt msgs) = .ok RawResponse.none →
        mainExchange documents msgs prompt dispatch =
          (msgs, some (.emptyResponse "Empty API response - no data received"))) ∧
    (dispatch (buildRequest documents prompt msgs) = .ok RawResponse.noContent →
        mainExchange documents msgs prompt dispatch =
          (msgs, some (.malformedResponse "Malformed API response - missing content field"))) := by
  constructor
  · intro h
    simp [mainExchange, h, validateResponse]
  · intro h
    simp [mainExchange, h, validateResponse]

/-- C7, witness at concrete boundary behaviors for both error kinds. -/
theorem C7_validation_witness :
    mainExchange [] [] "q" (fun _ => .ok RawResponse.none) =
      ([], some (.emptyResponse "Empty API response - no data received")) ∧
    mainExchange [] [] "q" (fun _ => .ok RawResponse.noContent) =
      ([], some (.malformedResponse "Malformed API response - missing content field")) :=
  ⟨(C7_validation [] [] "q" (fun _ => .ok RawResponse.none)).1 rfl,
    (C7_validation [] [] "q" (fun _ => .ok RawResponse.noContent)).2 rfl⟩

/-- C10: on a successful exchange the final transcript is the original one
with exactly two turns appended — the user's turn, then one assistant turn
carrying the extracted response text and citation list — so every
pre-existing turn keeps its content and position (v1 lines 124 and
203-207). -/
theorem C10_success_append (documents : List DocumentUnit) (msgs : List ChatTurn)
    (prompt : String) (dispatch : List ApiMessage → Except ExchangeError RawResponse)
    (blocks : List RespBlock)
    (h : dispatch (buildRequest documents prompt msgs) = .ok (RawResponse.ok blocks)) :
    mainExchange documents msgs prompt dispatch =
      (msgs ++ [{ role := "user", content := prompt, citations := [] },
                { role := "assistant", content := (extractCitations blocks).1,
                  citations := (extractCitations blocks).2 }], Option.none) := by
  simp [mainExchange, h, validateResponse]

/-- C10, witness at a concrete successful dispatch. -/
theorem C10_success_append_witness :
    mainExchange [] [] "q" (fun _ => .ok (RawResponse.ok [RespBlock.text "Ans" []])) =
      ([{ role := "user", content := "q", citations := [] },
        { role := "assistant", content := "Ans", citations := [] }], Option.none) := by
  have h := C10_success_append [] [] "q"
    (fun _ => .ok (RawResponse.ok [RespBlock.text "Ans" []])) [RespBlock.text "Ans" []] rfl
  simpa [extractCitations] using h

/-- C4: the page windows the chunk loop extracts — window
`chunkPageIndices start N` for each `start` in `pyRange100 0 N`, one
DocumentUnit per window — concatenate to exactly the page indices
`[0, N)` in ascending order (hence consecutive, gap-free, non-overlapping,
covering all `N` pages), and each window holds at most 100 pages
(v1 lines 61-65). -/
theorem C4_partition (parsePdf : List Nat → ParsedPdf) (writerBytes : List Nat → List Nat)
    (b64encode : List Nat → String) (basename : String) (fileBytes : List Nat) :
    ((pyRange100 0 (parsePdf fileBytes).pages.length).flatMap
        (fun s => chunkPageIndices s (parsePdf fileBytes).pages.length) =
      List.range (parsePdf fileBytes).pages.length) ∧
    (∀ s ∈ pyRange100 0 (parsePdf fileBytes).pages.length,
        (chunkPageIndices s (parsePdf fileBytes).pages.length).length ≤ 100) ∧
    (process_pdf parsePdf writerBytes b64encode basename fileBytes).1.length =
      (pyRange100 0 (parsePdf fileBytes).pages.length).length := by
  refine ⟨?_, ?_, ?_⟩
  · rw [pyRange100_cover, List.range_eq_range', Nat.sub_zero]
  · intro s _
    simp only [chunkPageIndices, List.length_range']
    omega
  · simp [process_pdf]

set_option maxRecDepth 4000 in
/-- C4, witness: the windows of a concrete 250-page document, with the
size bound instantiated at the window starting at page index 200. -/
theorem C4_partition_witness : (chunkPageIndices 200 250).length ≤ 100 := by
  have h := C4_partition parse250 writer0 b64c "thesis.pdf" [0]
  simp only [parse250, List.length_range] at h
  exact h.2.1 200 (by simp [pyRange100])

/-- C9: a zero-page document yields no DocumentUnits while the fingerprint
digest input is still produced, and in general the chunker emits
`⌈N / 100⌉` units for an `N`-page document (v1 lines 51-84). -/
theorem C9_unit_count (parsePdf : List Nat → ParsedPdf) (writerBytes : List Nat → List Nat)
    (b64encode : List Nat → String) (basename : String) (fileBytes : List Nat) :
    ((parsePdf fileBytes).pages.length = 0 →
        (process_pdf parsePdf writerBytes b64encode basename fileBytes).1 = []) ∧
    (process_pdf parsePdf writerBytes b64encode basename fileBytes).2 =
      fileBytes.drop (parsePdf fileBytes).posAfterParse ∧
    (process_pdf parsePdf writerBytes b64encode basename fileBytes).1.length =
      ((parsePdf fileBytes).pages.length + 99) / 100 := by
  refine ⟨?_, rfl, ?_⟩
  · intro h
    simp [process_pdf, h, pyRange100]
  · simp [process_pdf, pyRange100_length]

/-- C9, witness: the chunker on a concrete zero-page document. -/
theorem C9_unit_count_witness : (process_pdf parseEmptyDoc writer0 b64c "a.pdf" [5]).1 = [] :=
  (C9_unit_count parseEmptyDoc writer0 b64c "a.pdf" [5]).1 rfl

/-- C2, counterexample: two files with identical bytes (and identical
parses) but different basenames get different DocumentUnit titles, because
the title embeds `os.path.basename(file_path)` (v1 line 81) — so identical
bytes alone do not determine the title sequence as the claim states. -/
theorem C2_counterexample :
    (process_pdf parseOnePage writer0 b64c "a.pdf" [1]).1.map DocumentUnit.title ≠
      (process_pdf parseOnePage writer0 b64c "b.pdf" [1]).1.map DocumentUnit.title := by
  have e1 : pyRange100 0 1 = [0] := by simp [pyRange100]
  simp only [process_pdf, parseOnePage, List.length_cons, List.length_nil, e1, List.map_cons,
    List.map_nil, chunkTitle]
  decide

/-- C2, amended: the fingerprint is a digest of the file bytes from the
parser's final stream position on (the code hashes `file.read()` *after*
`PdfReader` consumed the stream, v1 lines 52-57), which is the full raw
bytes exactly when that position is 0.  Identical file bytes (under the
same external parser/serializer/encoder) yield an identical digest input —
hence an identical fingerprint — and identical page ranges and chunk data;
the DocumentUnit titles additionally depend on the file's basename, so
they coincide when the basenames do. -/
theorem C2_amended (parsePdf : List Nat → ParsedPdf) (writerBytes : List Nat → List Nat)
    (b64encode : List Nat → String) (base1 base2 : String) (fileBytes : List Nat) :
    (process_pdf parsePdf writerBytes b64encode base1 fileBytes).2 =
        (process_pdf parsePdf writerBytes b64encode base2 fileBytes).2 ∧
    (process_pdf parsePdf writerBytes b64encode base1 fileBytes).2 =
        fileBytes.drop (parsePdf fileBytes).posAfterParse ∧
    ((parsePdf fileBytes).posAfterParse = 0 →
        (process_pdf parsePdf writerBytes b64encode base1 fileBytes).2 = fileBytes) ∧
    (process_pdf parsePdf writerBytes b64encode base1 fileBytes).1.map DocumentUnit.title =
        (chunkRanges (parsePdf fileBytes).pages.length).map (chunkTitle base1) ∧
    (process_pdf parsePdf writerBytes b64encode base1 fileBytes).1.map DocumentUnit.data =
        (process_pdf parsePdf writerBytes b64encode base2 fileBytes).1.map DocumentUnit.data ∧
    (base1 = base2 →
        process_pdf parsePdf writerBytes b64encode base1 fileBytes =
          process_pdf parsePdf writerBytes b64encode base2 fileBytes) := by
  refine ⟨rfl, rfl, ?_, ?_, ?_, ?_⟩
  · intro h
    simp [process_pdf, h]
  · simp [process_pdf, chunkRanges, List.map_map]
  · simp [process_pdf, List.map_map]
  · intro h
    rw [h]

/-- C2, witness: the digest input on a concrete file whose parse leaves the
stream position at 0 is the file's full bytes. -/
theorem C2_amended_witness : (process_pdf parseOnePage writer0 b64c "a.pdf" [9]).2 = [9] :=
  (C2_amended parseOnePage writer0 b64c "a.pdf" "b.pdf" [9]).2.2.1 rfl

/-- C8: a 250-page document chunks into exactly 3 DocumentUnits titled with
the 1-based inclusive page ranges 1-100, 101-200 and 201-250, and the
request for the question `"What is the thesis?"` over empty prior history
is a single user message holding those 3 units followed by one text block
with exactly that question (v1 lines 61-83 and 135-145). -/
theorem C8_scenario :
    (process_pdf parse250 writer0 b64c "thesis.pdf" [0]).1.length = 3 ∧
    (process_pdf parse250 writer0 b64c "thesis.pdf" [0]).1.map DocumentUnit.title =
      ["thesis.pdf (pages 1-100)", "thesis.pdf (pages 101-200)",
        "thesis.pdf (pages 201-250)"] ∧
    buildRequest (process_pdf parse250 writer0 b64c "thesis.pdf" [0]).1
        "What is the thesis?" [] =
      [{ role := "user"
         content :=
           (process_pdf parse250 writer0 b64c "thesis.pdf" [0]).1.map ContentBlock.document
             ++ [ContentBlock.text "What is the thesis?"] }] := by
  have e1 : pyRange100 0 250 = [0, 100, 200] := by simp [pyRange100]
  refine ⟨?_, ?_, rfl⟩
  · simp [process_pdf, parse250, e1]
  · simp only [process_pdf, parse250, List.length_range, e1, List.map_cons, List.map_nil,
      chunkTitle]
    decide

end PdfChat
